import Mathlib

/-!
Shallow embedding of the environment configuration resolver of
`src/utils.py` (`load_context_config` and its inner helper `read_file`),
together with the Python dict-merge expression `{**base, **env}` it uses.

External collaborators (the filesystem, `yaml.safe_load`, `json.load`)
are modelled abstractly: a file's bytes are represented by the outcomes
of parsing them with each of the two parsers, and the filesystem is a
map from paths to such contents.
-/

/-- Python values, as produced by `yaml.safe_load` and `json.load`:
`None`, booleans, numbers, strings, lists and dicts (a dict is an
insertion-ordered association list of string keys). -/
inductive Val : Type
  | none : Val
  | bool (b : Bool) : Val
  | int (n : Int) : Val
  | str (s : String) : Val
  | list (xs : List Val) : Val
  | dict (kvs : List (String × Val)) : Val

/-- Python truthiness: `None`, `False`, `0`, `""`, `[]` and `{}` are
falsy, everything else is truthy.  Used by the `or {}` coercion in
`read_file` (utils.py line 39). -/
def Val.truthy : Val → Bool
  | .none => false
  | .bool b => b
  | .int n => n != 0
  | .str s => s != ""
  | .list xs => !xs.isEmpty
  | .dict kvs => !kvs.isEmpty

/-- The Python type name of a value, as it appears in a `TypeError`
message such as `'NoneType' object is not a mapping`. -/
def Val.pyTypeName : Val → String
  | .none => "NoneType"
  | .bool _ => "bool"
  | .int _ => "int"
  | .str _ => "str"
  | .list _ => "list"
  | .dict _ => "dict"

/-- A path built by the resolver.  The source only ever forms paths as
`Path(config_dir) / name` (utils.py lines 30-33), so a path is a
directory part and a final component. -/
structure PyPath where
  dir : String
  name : String
  deriving DecidableEq

/-- Rendering of a path, as in the error messages of utils.py. -/
def PyPath.render (p : PyPath) : String := p.dir ++ "/" ++ p.name

/-- Index of the first occurrence of a character in a list (the list's
length when absent). -/
def firstIdx (c : Char) : List Char → Nat
  | [] => 0
  | a :: rest => if a = c then 0 else firstIdx c rest + 1

/-- `pathlib.Path.suffix`: the extension of the final component from
its last dot, empty when the last dot is absent, leading or trailing. -/
def PyPath.suffix (p : PyPath) : String :=
  let cs := p.name.toList
  let k := firstIdx '.' cs.reverse
  let i := cs.length - 1 - k
  if k < cs.length ∧ 0 < i ∧ i < cs.length - 1 then
    String.mk (cs.drop i)
  else ""

/-- Modelled behaviour of a file's bytes under the two external
parsers: `yaml` is the outcome of `yaml.safe_load` on the file
(`Except.ok Val.none` for an empty or whitespace-only document, per the
spec), `json` the outcome of `json.load`. -/
structure Content where
  yaml : Except String Val
  json : Except String Val

/-- The filesystem seen by one resolution call: which paths hold a file
and what its bytes parse to. -/
structure FS where
  content : PyPath → Option Content

/-- `Path.exists()`: a file is present iff it has contents. -/
def FS.pathExists (fs : FS) (p : PyPath) : Bool := (fs.content p).isSome

/-- The failure outcomes of `load_context_config`, one constructor per
raise site or propagated exception class:
`invalidEnvironment` and `ambiguousConfig` and `unsupportedFormat` are
the three `ValueError`s, `configNotFound` the explicit
`FileNotFoundError`, `openFailed` a `FileNotFoundError` out of
`open()`, `yamlParseError` and `jsonParseError` the propagated
`yaml.YAMLError` and `json.JSONDecodeError`, and `typeError` the
`TypeError` out of `{**base, **env}` on a non-mapping operand. -/
inductive Err : Type
  | invalidEnvironment (env : String) : Err
  | configNotFound (env : String) (configDir : String) (candidates : List PyPath) : Err
  | ambiguousConfig (env : String) (found : List PyPath) : Err
  | unsupportedFormat (sfx : String) : Err
  | openFailed (p : PyPath) : Err
  | yamlParseError (msg : String) : Err
  | jsonParseError (msg : String) : Err
  | typeError (msg : String) : Err

/-- The set of valid environment names (utils.py line 22). -/
def valid_envs : List String := ["dev", "stage", "prod"]

/-- Python `', '.join`. -/
def joinComma : List String → String
  | [] => ""
  | [s] => s
  | s :: rest => s ++ ", " ++ joinComma rest

/-- Lexicographic comparison of character lists by code point, the
order Python uses to compare strings. -/
def lexLe : List Char → List Char → Bool
  | [], _ => true
  | _ :: _, [] => false
  | a :: as, b :: bs =>
    if a.toNat < b.toNat then true
    else if b.toNat < a.toNat then false
    else lexLe as bs

/-- String comparison by code points. -/
def strLe (a b : String) : Bool := lexLe a.toList b.toList

/-- One step of insertion sort on strings. -/
def insertSorted (s : String) : List String → List String
  | [] => [s]
  | t :: rest => if strLe s t then s :: t :: rest else t :: insertSorted s rest

/-- Python `sorted` on a list of strings, modelled as insertion sort
(byte-wise lexicographic order, as Python compares strings). -/
def pySorted (l : List String) : List String := l.foldr insertSorted []

/-- The message attached to each error, following the f-strings of
utils.py (lines 24-27, 54-57, 60-63, 43) and Python's standard
`TypeError` text. -/
def Err.message : Err → String
  | .invalidEnvironment env =>
      "Invalid environment '" ++ env ++ "'. Must be one of: " ++
        joinComma (pySorted valid_envs)
  | .configNotFound env configDir cands =>
      "No config file found for environment '" ++ env ++ "' in " ++ configDir ++
        ". Expected one of: " ++ joinComma (cands.map PyPath.render)
  | .ambiguousConfig env found =>
      "Multiple config files found for environment '" ++ env ++ "': [" ++
        joinComma (found.map PyPath.render) ++ "]. Use only one (.yaml/.yml OR .json)."
  | .unsupportedFormat sfx => "Unsupported config file type: " ++ sfx
  | .openFailed p => "No such file or directory: " ++ p.render
  | .yamlParseError msg => msg
  | .jsonParseError msg => msg
  | .typeError msg => msg

/-- Whether a dict (association list) has an entry for key `k`. -/
def hasKey (d : List (String × Val)) (k : String) : Bool := d.any (·.1 == k)

/-- Lookup in a dict. -/
def dictGet (d : List (String × Val)) (k : String) : Option Val :=
  (d.find? (·.1 == k)).map (·.2)

/-- Python `d[k] = v` on an insertion-ordered dict: overwrite in place
when the key is present, append otherwise. -/
def dictInsert (d : List (String × Val)) (k : String) (v : Val) :
    List (String × Val) :=
  if hasKey d k then d.map (fun kv => if kv.1 == k then (k, v) else kv)
  else d ++ [(k, v)]

/-- The dict built by `{**b, **e}` when both operands are dicts: start
from `b` and insert every entry of `e` in order. -/
def dictMerge (b e : List (String × Val)) : List (String × Val) :=
  e.foldl (fun d kv => dictInsert d kv.1 kv.2) b

/-- The Python expression `{**a, **b}` (utils.py line 67): both
operands must be mappings, checked left to right, else `TypeError`. -/
def mergeStar : Val → Val → Except Err Val
  | .dict xs, .dict ys => .ok (.dict (dictMerge xs ys))
  | .dict _, w => .error (.typeError ("'" ++ w.pyTypeName ++ "' object is not a mapping"))
  | a, _ => .error (.typeError ("'" ++ a.pyTypeName ++ "' object is not a mapping"))

/-- `read_file` (utils.py lines 35-43): open the file, then dispatch on
the suffix; `.yaml`/`.yml` go through `yaml.safe_load(f) or {}`,
`.json` through `json.load(f)`, anything else raises `ValueError`. -/
def read_file (fs : FS) (path : PyPath) : Except Err Val :=
  match fs.content path with
  | Option.none => .error (.openFailed path)
  | Option.some c =>
    if path.suffix = ".yaml" ∨ path.suffix = ".yml" then
      match c.yaml with
      | .ok v => .ok (if v.truthy then v else .dict [])
      | .error e => .error (.yamlParseError e)
    else if path.suffix = ".json" then
      match c.json with
      | .ok v => .ok v
      | .error e => .error (.jsonParseError e)
    else .error (.unsupportedFormat path.suffix)

/-- The base-document path `Path(config_dir) / "base.yaml"` (line 30). -/
def basePath (config_dir : String) : PyPath := ⟨config_dir, "base.yaml"⟩

/-- The three candidate environment-document paths (lines 31-33). -/
def envCandidates (config_dir env_name : String) : List PyPath :=
  [⟨config_dir, env_name ++ ".yaml"⟩,
   ⟨config_dir, env_name ++ ".yml"⟩,
   ⟨config_dir, env_name ++ ".json"⟩]

/-- Optional base-document load (utils.py lines 45-48): read
`base.yaml` when present, otherwise use the empty dict. -/
def loadBase (fs : FS) (config_dir : String) : Except Err Val :=
  if fs.pathExists (basePath config_dir) then read_file fs (basePath config_dir)
  else .ok (.dict [])

/-- Environment-file discovery (utils.py line 51): the candidates that
exist on disk, in candidate order. -/
def discover (fs : FS) (config_dir env_name : String) : List PyPath :=
  (envCandidates config_dir env_name).filter (fun p => fs.pathExists p)

/-- `load_context_config` (utils.py lines 7-69): validate the
environment name, load the optional base document, discover the
environment document (zero matches and two-or-more matches are errors),
read it and merge with `{**base_config, **env_config}`. -/
def load_context_config (fs : FS) (env_name : String)
    (config_dir : String := "config") : Except Err Val :=
  if env_name ∉ valid_envs then
    .error (.invalidEnvironment env_name)
  else
    match loadBase fs config_dir with
    | .error e => .error e
    | .ok base_config =>
      match discover fs config_dir env_name with
      | [] => .error (.configNotFound env_name config_dir
                        (envCandidates config_dir env_name))
      | [p] =>
        match read_file fs p with
        | .error e => .error e
        | .ok env_config => mergeStar base_config env_config
      | ps => .error (.ambiguousConfig env_name ps)

/-- Whether an outcome is the ambiguity error (utils.py line 60). -/
def isAmbiguousConfigErr : Except Err Val → Bool
  | .error (.ambiguousConfig _ _) => true
  | _ => false

/-- Whether an outcome is the not-found error (utils.py line 54). -/
def isConfigNotFoundErr : Except Err Val → Bool
  | .error (.configNotFound _ _ _) => true
  | _ => false

/-- The empty filesystem. -/
def fsEmpty : FS := ⟨fun _ => Option.none⟩

/-- Fixture: `base.yaml = {"A": 1, "B": 2}`, `dev.yaml = {"B": 3, "C": 4}`. -/
def fsC1 : FS := ⟨fun p =>
  if p = basePath "config" then
    Option.some ⟨.ok (.dict [("A", .int 1), ("B", .int 2)]), .error "j"⟩
  else if p = ⟨"config", "dev.yaml"⟩ then
    Option.some ⟨.ok (.dict [("B", .int 3), ("C", .int 4)]), .error "j"⟩
  else Option.none⟩

/-- Fixture: a well-formed `dev.yaml` and a well-formed `dev.json` coexist. -/
def fsC2 : FS := ⟨fun p =>
  if p = ⟨"config", "dev.yaml"⟩ then
    Option.some ⟨.ok (.dict [("test", .str "yaml")]), .error "x"⟩
  else if p = ⟨"config", "dev.json"⟩ then
    Option.some ⟨.error "y", .ok (.dict [("test", .str "json")])⟩
  else Option.none⟩

/-- Fixture: a malformed `base.yaml` next to two environment candidates. -/
def fsC2bad : FS := ⟨fun p =>
  if p = basePath "config" then
    Option.some ⟨.error "mapping values are not allowed here", .error "x"⟩
  else if p = ⟨"config", "dev.yaml"⟩ then
    Option.some ⟨.ok (.dict []), .error "x"⟩
  else if p = ⟨"config", "dev.yml"⟩ then
    Option.some ⟨.ok (.dict []), .error "x"⟩
  else Option.none⟩

/-- Fixture: a malformed `base.yaml` and no environment file at all. -/
def fsC4bad : FS := ⟨fun p =>
  if p = basePath "config" then
    Option.some ⟨.error "while parsing a block mapping", .error "x"⟩
  else Option.none⟩

/-- Fixture: no `base.yaml`, a single `dev.yaml` holding one key. -/
def fsC5 : FS := ⟨fun p =>
  if p = ⟨"config", "dev.yaml"⟩ then
    Option.some ⟨.ok (.dict [("FQDN", .str "x")]), .error "Expecting value"⟩
  else Option.none⟩

/-- Fixture: a base document and an empty (zero-byte) `dev.yaml`. -/
def fsC6 : FS := ⟨fun p =>
  if p = basePath "config" then
    Option.some ⟨.ok (.dict [("VPC_CIDR", .str "10.0.0.0/16")]), .error "x"⟩
  else if p = ⟨"config", "dev.yaml"⟩ then
    Option.some ⟨.ok Val.none, .error "Expecting value"⟩
  else Option.none⟩

/-- Fixture: an empty (zero-byte) `base.yaml` and a `dev.yaml` holding
one key. -/
def fsC6b : FS := ⟨fun p =>
  if p = basePath "config" then
    Option.some ⟨.ok Val.none, .error "Expecting value"⟩
  else if p = ⟨"config", "dev.yaml"⟩ then
    Option.some ⟨.ok (.dict [("FQDN", .str "x")]), .error "x"⟩
  else Option.none⟩

/-- Fixture: a malformed `base.yaml` next to a well-formed `dev.yaml`. -/
def fsC7a : FS := ⟨fun p =>
  if p = basePath "config" then
    Option.some ⟨.error "while scanning", .error "x"⟩
  else if p = ⟨"config", "dev.yaml"⟩ then
    Option.some ⟨.ok (.dict []), .error "x"⟩
  else Option.none⟩

/-- Fixture: a single malformed `dev.json` and no base. -/
def fsC7b : FS := ⟨fun p =>
  if p = ⟨"config", "dev.json"⟩ then
    Option.some ⟨.error "y", .error "Expecting value: line 1"⟩
  else Option.none⟩

/-- Fixture: a single `dev.yaml`, plus an unrelated file the resolver
never looks at. -/
def fsC8a : FS := ⟨fun p =>
  if p = ⟨"config", "dev.yaml"⟩ then
    Option.some ⟨.ok (.dict [("A", .int 1)]), .error "x"⟩
  else if p = ⟨"config", "unrelated.txt"⟩ then
    Option.some ⟨.ok Val.none, .error "z"⟩
  else Option.none⟩

/-- Fixture: the same `dev.yaml` as `fsC8a`, nothing else. -/
def fsC8b : FS := ⟨fun p =>
  if p = ⟨"config", "dev.yaml"⟩ then
    Option.some ⟨.ok (.dict [("A", .int 1)]), .error "x"⟩
  else Option.none⟩

/-- Fixture: a base document and a `dev.json` whose text is the JSON
literal `null`. -/
def fsC10 : FS := ⟨fun p =>
  if p = basePath "config" then
    Option.some ⟨.ok (.dict [("A", .int 1)]), .error "x"⟩
  else if p = ⟨"config", "dev.json"⟩ then
    Option.some ⟨.error "y", .ok Val.none⟩
  else Option.none⟩

/-- Fixture: a base document and a `dev.yaml` whose document is the
empty list `[]` (well-formed YAML, not a mapping, not a null or empty
document). -/
def fsC10bad : FS := ⟨fun p =>
  if p = basePath "config" then
    Option.some ⟨.ok (.dict [("A", .int 1)]), .error "x"⟩
  else if p = ⟨"config", "dev.yaml"⟩ then
    Option.some ⟨.ok (.list []), .error "x"⟩
  else Option.none⟩

theorem find?_eq_none_of_not_hasKey (d : List (String × Val)) (k : String)
    (h : hasKey d k = false) : d.find? (·.1 == k) = Option.none := by
  induction d with
  | nil => rfl
  | cons kv rest ih =>
    simp only [hasKey, List.any_cons, Bool.or_eq_false_iff] at h
    simp only [List.find?, h.1, ih h.2]

theorem find?_cons_true (p : String × Val → Bool) (kv : String × Val)
    (rest : List (String × Val)) (h : p kv = true) :
    (kv :: rest).find? p = Option.some kv := by
  simp [List.find?, h]

theorem find?_cons_false (p : String × Val → Bool) (kv : String × Val)
    (rest : List (String × Val)) (h : p kv = false) :
    (kv :: rest).find? p = rest.find? p := by
  simp [List.find?, h]

theorem find?_map_overwrite (d : List (String × Val)) (k : String) (v : Val)
    (h : hasKey d k = true) :
    (d.map (fun kv => if kv.1 == k then (k, v) else kv)).find? (·.1 == k) =
      Option.some (k, v) := by
  induction d with
  | nil => simp [hasKey] at h
  | cons kv rest ih =>
    by_cases hk : kv.1 = k
    · have hbeq : (kv.1 == k) = true := by simp [hk]
      rw [List.map_cons, find?_cons_true _ _ _ (by simp [hbeq])]
      simp [hbeq]
    · have hk' : (kv.1 == k) = false := by simp [hk]
      have hrest : hasKey rest k = true := by
        simp only [hasKey, List.any_cons, hk', Bool.false_or] at h
        exact h
      rw [List.map_cons, find?_cons_false _ _ _ (by simp [hk'])]
      exact ih hrest

theorem find?_map_other (d : List (String × Val)) (k k' : String) (v : Val)
    (hne : k' ≠ k) :
    (d.map (fun kv => if kv.1 == k then (k, v) else kv)).find? (·.1 == k') =
      d.find? (·.1 == k') := by
  induction d with
  | nil => rfl
  | cons kv rest ih =>
    by_cases hk : kv.1 = k
    · have hbeq : (kv.1 == k) = true := by simp [hk]
      have h2 : ((fun x : String × Val => x.1 == k') kv) = false := by
        simp only []
        rw [hk]
        simp [Ne.symm hne]
      rw [List.map_cons, find?_cons_false _ _ _ (by simp [hbeq, Ne.symm hne]),
        find?_cons_false _ _ _ h2]
      exact ih
    · have hk' : (kv.1 == k) = false := by simp [hk]
      cases hfound : (kv.1 == k') with
      | true =>
        rw [List.map_cons, find?_cons_true _ _ _ (by simp [hk', hfound]),
          find?_cons_true (fun x => x.1 == k') _ _ hfound]
        simp [hk']
      | false =>
        rw [List.map_cons, find?_cons_false _ _ _ (by simp [hk', hfound]),
          find?_cons_false (fun x => x.1 == k') _ _ hfound]
        exact ih

theorem find?_append_single_other (d : List (String × Val)) (k k' : String)
    (v : Val) (hne : k' ≠ k) :
    (d ++ [(k, v)]).find? (·.1 == k') = d.find? (·.1 == k') := by
  induction d with
  | nil =>
    rw [List.nil_append, find?_cons_false _ _ _ (by simp [Ne.symm hne])]
  | cons kv rest ih =>
    cases hfound : (kv.1 == k') with
    | true =>
      rw [List.cons_append, find?_cons_true (fun x => x.1 == k') _ _ hfound,
        find?_cons_true (fun x => x.1 == k') _ _ hfound]
    | false =>
      rw [List.cons_append, find?_cons_false (fun x => x.1 == k') _ _ hfound,
        find?_cons_false (fun x => x.1 == k') _ _ hfound]
      exact ih

theorem find?_append_single_self (d : List (String × Val)) (k : String)
    (v : Val) (h : hasKey d k = false) :
    (d ++ [(k, v)]).find? (·.1 == k) = Option.some (k, v) := by
  induction d with
  | nil =>
    rw [List.nil_append, find?_cons_true _ _ _ (by simp)]
  | cons kv rest ih =>
    simp only [hasKey, List.any_cons, Bool.or_eq_false_iff] at h
    rw [List.cons_append, find?_cons_false (fun x => x.1 == k) _ _ h.1]
    exact ih h.2

theorem dictGet_insert_self (d : List (String × Val)) (k : String) (v : Val) :
    dictGet (dictInsert d k v) k = Option.some v := by
  unfold dictInsert
  by_cases h : hasKey d k
  · rw [if_pos h]
    unfold dictGet
    rw [find?_map_overwrite d k v h]
    rfl
  · have h' : hasKey d k = false := by revert h; cases hasKey d k <;> simp
    rw [h']
    unfold dictGet
    rw [if_neg (by simp), find?_append_single_self d k v h']
    rfl

theorem dictGet_insert_other (d : List (String × Val)) (k k' : String) (v : Val)
    (hne : k' ≠ k) : dictGet (dictInsert d k v) k' = dictGet d k' := by
  unfold dictInsert
  by_cases h : hasKey d k
  · rw [if_pos h]
    unfold dictGet
    rw [find?_map_other d k k' v hne]
  · have h' : hasKey d k = false := by revert h; cases hasKey d k <;> simp
    simp only [h', Bool.false_eq_true, if_false]
    unfold dictGet
    rw [find?_append_single_other d k k' v hne]

theorem hasKey_eq_false_of_not_mem (d : List (String × Val)) (k : String)
    (h : k ∉ d.map Prod.fst) : hasKey d k = false := by
  induction d with
  | nil => rfl
  | cons kv rest ih =>
    simp only [List.map_cons, List.mem_cons, not_or] at h
    have h1 : (kv.1 == k) = false := by simp [Ne.symm h.1]
    simp only [hasKey, List.any_cons, h1, Bool.false_or]
    exact ih h.2

theorem dictGet_cons_self (rest : List (String × Val)) (k : String) (v : Val) :
    dictGet ((k, v) :: rest) k = Option.some v := by
  simp [dictGet, List.find?]

theorem dictGet_cons_other (rest : List (String × Val)) (k0 k : String)
    (v : Val) (hne : k ≠ k0) : dictGet ((k0, v) :: rest) k = dictGet rest k := by
  have h1 : (k0 == k) = false := by simp [Ne.symm hne]
  simp [dictGet, List.find?, h1]

theorem dictGet_merge (e : List (String × Val)) (k : String)
    (hnodup : (e.map Prod.fst).Nodup) :
    ∀ b, dictGet (dictMerge b e) k =
      if (dictGet e k).isSome then dictGet e k else dictGet b k := by
  induction e with
  | nil => intro b; simp [dictGet, List.find?, dictMerge]
  | cons kv rest ih =>
    intro b
    obtain ⟨k0, v0⟩ := kv
    simp only [List.map_cons, List.nodup_cons] at hnodup
    have hmerge : dictMerge b ((k0, v0) :: rest) =
        dictMerge (dictInsert b k0 v0) rest := rfl
    rw [hmerge, ih hnodup.2 (dictInsert b k0 v0)]
    by_cases hk : k = k0
    · subst hk
      have hrest : dictGet rest k = Option.none := by
        unfold dictGet
        rw [find?_eq_none_of_not_hasKey rest k
          (hasKey_eq_false_of_not_mem rest k hnodup.1)]
        rfl
      rw [hrest, dictGet_cons_self, dictGet_insert_self]
      simp
    · rw [dictGet_cons_other rest k0 k v0 hk, dictGet_insert_other b k0 k v0 hk]

example : PyPath.suffix ⟨"config", "dev.yml"⟩ = ".yml" := by decide

example : PyPath.suffix ⟨"config", "noext"⟩ = "" := by decide

example : PyPath.suffix ⟨"config", ".bashrc"⟩ = "" := by decide

example : joinComma (pySorted valid_envs) = "dev, prod, stage" := by decide

theorem dictMerge_disjoint_append (e : List (String × Val))
    (hnodup : (e.map Prod.fst).Nodup) :
    ∀ d, (∀ kv ∈ e, hasKey d kv.1 = false) → dictMerge d e = d ++ e := by
  induction e with
  | nil => intro d _; simp [dictMerge]
  | cons kv rest ih =>
    intro d hd
    simp only [List.map_cons, List.nodup_cons] at hnodup
    have h0 : hasKey d kv.1 = false := hd kv (by simp)
    have hstep : dictMerge d (kv :: rest) = dictMerge (d ++ [kv]) rest := by
      show dictMerge (dictInsert d kv.1 kv.2) rest = dictMerge (d ++ [kv]) rest
      unfold dictInsert
      rw [h0]
      rfl
    rw [hstep, ih hnodup.2 (d ++ [kv]) ?_]
    · rw [List.append_assoc]
      rfl
    · intro kv' hkv'
      have h1 : d.any (·.1 == kv'.1) = false := hd kv' (by simp [hkv'])
      have hm : kv'.1 ∈ rest.map Prod.fst := List.mem_map_of_mem _ hkv'
      have hne : kv.1 ≠ kv'.1 := fun hcontra => hnodup.1 (hcontra ▸ hm)
      have h2 : (kv.1 == kv'.1) = false := by simp [hne]
      simp [hasKey, List.any_append, h1, h2]

theorem dictMerge_nil (e : List (String × Val))
    (hnodup : (e.map Prod.fst).Nodup) : dictMerge [] e = e := by
  rw [dictMerge_disjoint_append e hnodup [] (fun kv _ => rfl)]
  rfl

theorem load_success (fs : FS) (env dir : String) (b : Val) (p : PyPath)
    (hv : env ∈ valid_envs)
    (hb : loadBase fs dir = .ok b)
    (hd : discover fs dir env = [p]) :
    load_context_config fs env dir =
      match read_file fs p with
      | .error e => .error e
      | .ok env_config => mergeStar b env_config := by
  unfold load_context_config
  rw [if_neg (fun hn => hn hv), hb, hd]

theorem read_file_not_unsupported (fs : FS) (p : PyPath) (s : String)
    (hs : p.suffix = ".yaml" ∨ p.suffix = ".yml" ∨ p.suffix = ".json") :
    read_file fs p ≠ .error (.unsupportedFormat s) := by
  rcases hc : fs.content p with _ | c
  · simp [read_file, hc]
  · simp only [read_file, hc]
    rcases hs with h | h | h
    · rw [if_pos (Or.inl h)]
      rcases c.yaml with e | v <;> simp
    · rw [if_pos (Or.inr h)]
      rcases c.yaml with e | v <;> simp
    · rw [if_neg (by simp [h]), if_pos h]
      rcases c.json with e | v <;> simp

theorem mergeStar_not_unsupported (a b : Val) (s : String) :
    mergeStar a b ≠ .error (.unsupportedFormat s) := by
  rcases a <;> rcases b <;> simp [mergeStar]

theorem basePath_suffix (dir : String) : (basePath dir).suffix = ".yaml" := rfl

theorem loadBase_not_unsupported (fs : FS) (dir s : String) :
    loadBase fs dir ≠ .error (.unsupportedFormat s) := by
  unfold loadBase
  by_cases hex : fs.pathExists (basePath dir) = true
  · rw [if_pos hex]
    exact read_file_not_unsupported fs (basePath dir) s (Or.inl rfl)
  · rw [if_neg hex]
    simp

theorem load_base_error (fs : FS) (env dir : String) (e : Err)
    (hv : env ∈ valid_envs) (hb : loadBase fs dir = .error e) :
    load_context_config fs env dir = .error e := by
  unfold load_context_config
  rw [if_neg (fun hn => hn hv), hb]

theorem load_notfound_shape (fs : FS) (env dir : String) (b : Val)
    (hv : env ∈ valid_envs) (hb : loadBase fs dir = .ok b)
    (hd : discover fs dir env = []) :
    load_context_config fs env dir =
      .error (.configNotFound env dir (envCandidates dir env)) := by
  unfold load_context_config
  rw [if_neg (fun hn => hn hv), hb, hd]

theorem load_ambiguous_shape (fs : FS) (env dir : String) (b : Val)
    (p q : PyPath) (rest : List PyPath)
    (hv : env ∈ valid_envs) (hb : loadBase fs dir = .ok b)
    (hd : discover fs dir env = p :: q :: rest) :
    load_context_config fs env dir =
      .error (.ambiguousConfig env (p :: q :: rest)) := by
  unfold load_context_config
  rw [if_neg (fun hn => hn hv), hb, hd]

theorem load_not_unsupported_aux (fs : FS) (env dir : String) (s : String)
    (hv : env ∈ valid_envs)
    (hsfx : ∀ p ∈ envCandidates dir env,
      p.suffix = ".yaml" ∨ p.suffix = ".yml" ∨ p.suffix = ".json") :
    load_context_config fs env dir ≠ .error (.unsupportedFormat s) := by
  rcases hb : loadBase fs dir with e | b
  · rw [load_base_error fs env dir e hv hb]
    have hnb := loadBase_not_unsupported fs dir s
    rw [hb] at hnb
    exact hnb
  · rcases hd : discover fs dir env with _ | ⟨p, rest⟩
    · rw [load_notfound_shape fs env dir b hv hb hd]
      simp
    · rcases rest with _ | ⟨q, rest'⟩
      · have hmem : p ∈ envCandidates dir env := by
          have hp : p ∈ discover fs dir env := by
            rw [hd]
            exact List.mem_cons_self p []
          exact List.mem_of_mem_filter hp
        have hs3 := hsfx p hmem
        rcases hr : read_file fs p with e | v
        · have hload : load_context_config fs env dir = .error e := by
            rw [load_success fs env dir b p hv hb hd, hr]
          rw [hload]
          have hne := read_file_not_unsupported fs p s hs3
          rw [hr] at hne
          exact hne
        · have hload : load_context_config fs env dir = mergeStar b v := by
            rw [load_success fs env dir b p hv hb hd, hr]
          rw [hload]
          exact mergeStar_not_unsupported b v s
      · rw [load_ambiguous_shape fs env dir b p q rest' hv hb hd]
        simp

/-- C1: for every successfully loaded base mapping B and environment
mapping E (the environment document's keys having no duplicates, as a
parsed dict), resolve returns the mapping `{**B, **E}` whose key set is
the union of B's and E's key sets, in which every key present in E maps
to E's value (entirely replacing B's value, with no recursive merge)
and every key absent from E maps to B's value. -/
theorem c1_merge_semantics (fs : FS) (env dir : String)
    (bs es : List (String × Val)) (p : PyPath)
    (hv : env ∈ valid_envs)
    (hb : loadBase fs dir = .ok (.dict bs))
    (hd : discover fs dir env = [p])
    (he : read_file fs p = .ok (.dict es))
    (hnodup : (es.map Prod.fst).Nodup) :
    load_context_config fs env dir = .ok (.dict (dictMerge bs es)) ∧
    (∀ k, dictGet (dictMerge bs es) k =
      if (dictGet es k).isSome then dictGet es k else dictGet bs k) ∧
    (∀ k, (dictGet (dictMerge bs es) k).isSome =
      ((dictGet bs k).isSome || (dictGet es k).isSome)) := by
  refine ⟨?_, ?_, ?_⟩
  · rw [load_success fs env dir (.dict bs) p hv hb hd, he]
    rfl
  · intro k
    exact dictGet_merge es k hnodup bs
  · intro k
    rw [dictGet_merge es k hnodup bs]
    cases h : dictGet es k <;> simp [h]

/-- C1 witness: `base.yaml = {"A": 1, "B": 2}`, `dev.yaml = {"B": 3,
"C": 4}` resolves to `{"A": 1, "B": 3, "C": 4}`. -/
theorem c1_merge_semantics_witness :
    load_context_config fsC1 "dev" "config" =
      .ok (.dict [("A", Val.int 1), ("B", Val.int 3), ("C", Val.int 4)]) ∧
    dictGet (dictMerge [("A", Val.int 1), ("B", Val.int 2)]
      [("B", Val.int 3), ("C", Val.int 4)]) "B" = Option.some (Val.int 3) := by
  have h := c1_merge_semantics fsC1 "dev" "config"
    [("A", Val.int 1), ("B", Val.int 2)] [("B", Val.int 3), ("C", Val.int 4)]
    ⟨"config", "dev.yaml"⟩ (by decide) rfl rfl rfl (by decide)
  exact ⟨h.1.trans rfl, (h.2.1 "B").trans rfl⟩

/-- C3: for every environment name outside the closed set
`{dev, stage, prod}`, resolve fails with `InvalidEnvironment` naming
the offending value and listing the valid set in sorted order, and the
outcome is the same on every filesystem (no filesystem access). -/
theorem c3_invalid_env (env : String) (h : env ∉ valid_envs) :
    (∀ fs dir, load_context_config fs env dir =
      .error (.invalidEnvironment env)) ∧
    (∀ fs fs' dir, load_context_config fs env dir =
      load_context_config fs' env dir) ∧
    Err.message (.invalidEnvironment env) =
      "Invalid environment '" ++ env ++ "'. Must be one of: " ++
        "dev, prod, stage" := by
  refine ⟨?_, ?_, ?_⟩
  · intro fs dir
    unfold load_context_config
    rw [if_pos h]
  · intro fs fs' dir
    unfold load_context_config
    rw [if_pos h, if_pos h]
  · have hj : joinComma (pySorted valid_envs) = "dev, prod, stage" := by decide
    show "Invalid environment '" ++ env ++ "'. Must be one of: " ++
        joinComma (pySorted valid_envs) =
      "Invalid environment '" ++ env ++ "'. Must be one of: " ++
        "dev, prod, stage"
    rw [hj]

/-- C3 witness: the name `production` (and likewise the empty string)
is rejected identically on every filesystem, with the sorted message. -/
theorem c3_invalid_env_witness :
    load_context_config fsEmpty "production" "config" =
      .error (.invalidEnvironment "production") ∧
    load_context_config fsEmpty "" "config" =
      .error (.invalidEnvironment "") ∧
    Err.message (.invalidEnvironment "production") =
      "Invalid environment 'production'. Must be one of: dev, prod, stage" := by
  have h1 := c3_invalid_env "production" (by decide)
  have h2 := c3_invalid_env "" (by decide)
  exact ⟨h1.1 fsEmpty "config", h2.1 fsEmpty "config", h1.2.2.trans (by decide)⟩

/-- C5: when `base.yaml` does not exist the base document is the empty
mapping and resolution does not fail for that reason: with a single
environment candidate parsing to the dict E, resolve returns exactly E. -/
theorem c5_no_base (fs : FS) (env dir : String)
    (es : List (String × Val)) (p : PyPath)
    (hv : env ∈ valid_envs)
    (hnb : fs.content (basePath dir) = Option.none)
    (hd : discover fs dir env = [p])
    (he : read_file fs p = .ok (.dict es))
    (hnodup : (es.map Prod.fst).Nodup) :
    load_context_config fs env dir = .ok (.dict es) := by
  have hb : loadBase fs dir = .ok (.dict []) := by
    unfold loadBase FS.pathExists
    rw [hnb]
    rfl
  rw [load_success fs env dir (.dict []) p hv hb hd, he]
  show mergeStar (.dict []) (.dict es) = .ok (.dict es)
  have hm : mergeStar (Val.dict []) (Val.dict es) =
      .ok (.dict (dictMerge [] es)) := rfl
  rw [hm, dictMerge_nil es hnodup]

/-- C5 witness: no `base.yaml` and a `dev.yaml` of `{"FQDN": "x"}`
resolves to exactly `{"FQDN": "x"}`. -/
theorem c5_no_base_witness :
    load_context_config fsC5 "dev" "config" =
      .ok (.dict [("FQDN", Val.str "x")]) :=
  c5_no_base fsC5 "dev" "config" [("FQDN", Val.str "x")]
    ⟨"config", "dev.yaml"⟩ (by decide) rfl rfl rfl (by decide)

/-- C2 counterexample: a directory holding both `dev.yaml` and
`dev.yml` but whose `base.yaml` is malformed fails with the propagated
YAML parse error, not with `AmbiguousConfig`, because the base document
is read before environment-file discovery (utils.py lines 45-51). -/
theorem c2_counterexample :
    fsC2bad.pathExists ⟨"config", "dev.yaml"⟩ = true ∧
    fsC2bad.pathExists ⟨"config", "dev.yml"⟩ = true ∧
    load_context_config fsC2bad "dev" "config" =
      .error (.yamlParseError "mapping values are not allowed here") ∧
    isAmbiguousConfigErr (load_context_config fsC2bad "dev" "config") = false :=
  ⟨rfl, rfl, rfl, rfl⟩

/-- C2 amended: for every valid environment name and every directory in
which two or more of the three candidate environment files exist,
provided the base document is absent or reads successfully, resolve
fails with `AmbiguousConfig` listing exactly the matching candidate
paths, whatever the environment files hold (they are never parsed). -/
theorem c2_ambiguous (fs : FS) (env dir : String) (b : Val) (ps : List PyPath)
    (hv : env ∈ valid_envs)
    (hb : loadBase fs dir = .ok b)
    (hd : discover fs dir env = ps)
    (hlen : 2 ≤ ps.length) :
    load_context_config fs env dir = .error (.ambiguousConfig env ps) ∧
    ps = (envCandidates dir env).filter (fun p => fs.pathExists p) := by
  constructor
  · rcases ps with _ | ⟨p, _ | ⟨q, rest⟩⟩
    · simp at hlen
    · simp at hlen
    · exact load_ambiguous_shape fs env dir b p q rest hv hb hd
  · rw [← hd]
    rfl

/-- C2 witness: `dev.yaml` and `dev.json` both present (and no base)
yields `AmbiguousConfig` listing both paths. -/
theorem c2_ambiguous_witness :
    load_context_config fsC2 "dev" "config" =
      .error (.ambiguousConfig "dev"
        [⟨"config", "dev.yaml"⟩, ⟨"config", "dev.json"⟩]) :=
  (c2_ambiguous fsC2 "dev" "config" (.dict [])
    [⟨"config", "dev.yaml"⟩, ⟨"config", "dev.json"⟩]
    (by decide) rfl rfl (by decide)).1

/-- C4 counterexample: a directory with no environment file for `prod`
but a malformed `base.yaml` fails with the propagated YAML parse error,
not with `ConfigNotFound`, because the base document is read before
environment-file discovery (utils.py lines 45-51). -/
theorem c4_counterexample :
    fsC4bad.pathExists ⟨"config", "prod.yaml"⟩ = false ∧
    fsC4bad.pathExists ⟨"config", "prod.yml"⟩ = false ∧
    fsC4bad.pathExists ⟨"config", "prod.json"⟩ = false ∧
    load_context_config fsC4bad "prod" "config" =
      .error (.yamlParseError "while parsing a block mapping") ∧
    isConfigNotFoundErr (load_context_config fsC4bad "prod" "config") = false :=
  ⟨rfl, rfl, rfl, rfl, rfl⟩

/-- C4 amended: for every valid environment name, if none of the three
candidate environment files exists, then provided the base document is
absent or reads successfully, resolve fails with `ConfigNotFound`
carrying the environment and all three attempted candidate paths, and
its message names the environment and spells out all three paths. -/
theorem c4_not_found (fs : FS) (env dir : String) (b : Val)
    (hv : env ∈ valid_envs)
    (hb : loadBase fs dir = .ok b)
    (h1 : fs.content ⟨dir, env ++ ".yaml"⟩ = Option.none)
    (h2 : fs.content ⟨dir, env ++ ".yml"⟩ = Option.none)
    (h3 : fs.content ⟨dir, env ++ ".json"⟩ = Option.none) :
    load_context_config fs env dir =
      .error (.configNotFound env dir (envCandidates dir env)) ∧
    Err.message (.configNotFound env dir (envCandidates dir env)) =
      "No config file found for environment '" ++ env ++ "' in " ++ dir ++
        ". Expected one of: " ++
        ((dir ++ "/" ++ (env ++ ".yaml")) ++ ", " ++
         ((dir ++ "/" ++ (env ++ ".yml")) ++ ", " ++
          (dir ++ "/" ++ (env ++ ".json")))) := by
  constructor
  · have hd : discover fs dir env = [] := by
      simp [discover, envCandidates, FS.pathExists, List.filter, h1, h2, h3]
    exact load_notfound_shape fs env dir b hv hb hd
  · rfl

/-- C4 witness: an empty directory for `prod` yields `ConfigNotFound`
naming all three candidate paths. -/
theorem c4_not_found_witness :
    load_context_config fsEmpty "prod" "config" =
      .error (.configNotFound "prod" "config"
        [⟨"config", "prod.yaml"⟩, ⟨"config", "prod.yml"⟩,
         ⟨"config", "prod.json"⟩]) ∧
    Err.message (.configNotFound "prod" "config"
        (envCandidates "config" "prod")) =
      "No config file found for environment 'prod' in config. Expected one " ++
        "of: config/prod.yaml, config/prod.yml, config/prod.json" := by
  have h := c4_not_found fsEmpty "prod" "config" (.dict [])
    (by decide) rfl rfl rfl rfl
  exact ⟨h.1.trans (by rfl), h.2.trans (by decide)⟩

/-- C6: an empty or whitespace-only YAML file — one whose
`yaml.safe_load` outcome is the `None` document — parses to the empty
mapping rather than erroring, for any `.yaml`/`.yml` path, `base.yaml`
included: an empty environment file contributes no keys and the merge
result equals the base mapping, and an empty `base.yaml` loads as the
empty mapping so that resolution proceeds and returns the environment
mapping. -/
theorem c6_empty_yaml (fs : FS) (env dir : String) (p : PyPath) (c cb : Content)
    (bs es : List (String × Val))
    (hv : env ∈ valid_envs) :
    (∀ q cq, fs.content q = Option.some cq →
      (q.suffix = ".yaml" ∨ q.suffix = ".yml") → cq.yaml = .ok Val.none →
      read_file fs q = .ok (.dict [])) ∧
    (loadBase fs dir = .ok (.dict bs) → discover fs dir env = [p] →
      fs.content p = Option.some c → (p.suffix = ".yaml" ∨ p.suffix = ".yml") →
      c.yaml = .ok Val.none →
      load_context_config fs env dir = .ok (.dict bs)) ∧
    (fs.content (basePath dir) = Option.some cb → cb.yaml = .ok Val.none →
      loadBase fs dir = .ok (.dict []) ∧
      (discover fs dir env = [p] → read_file fs p = .ok (.dict es) →
        (es.map Prod.fst).Nodup →
        load_context_config fs env dir = .ok (.dict es))) := by
  have ha : ∀ q cq, fs.content q = Option.some cq →
      (q.suffix = ".yaml" ∨ q.suffix = ".yml") → cq.yaml = .ok Val.none →
      read_file fs q = .ok (.dict []) := by
    intro q cq hcq hsq hyq
    simp only [read_file, hcq]
    rw [if_pos hsq, hyq]
    rfl
  refine ⟨ha, ?_, ?_⟩
  · intro hb hd hc hs hy
    rw [load_success fs env dir (.dict bs) p hv hb hd, ha p c hc hs hy]
    rfl
  · intro hcb hyb
    have hbase : loadBase fs dir = .ok (.dict []) := by
      unfold loadBase
      rw [if_pos (by simp [FS.pathExists, hcb]),
        ha (basePath dir) cb hcb (Or.inl (basePath_suffix dir)) hyb]
    refine ⟨hbase, ?_⟩
    intro hd he hnodup
    rw [load_success fs env dir (.dict []) p hv hbase hd, he]
    show mergeStar (.dict []) (.dict es) = .ok (.dict es)
    have hm : mergeStar (Val.dict []) (Val.dict es) =
        .ok (.dict (dictMerge [] es)) := rfl
    rw [hm, dictMerge_nil es hnodup]

/-- C6 witness: a zero-byte `dev.yaml` over a base document leaves the
base mapping unchanged, and a zero-byte `base.yaml` loads as the empty
mapping so a `dev.yaml` of `{"FQDN": "x"}` resolves to exactly that. -/
theorem c6_empty_yaml_witness :
    read_file fsC6 ⟨"config", "dev.yaml"⟩ = .ok (.dict []) ∧
    load_context_config fsC6 "dev" "config" =
      .ok (.dict [("VPC_CIDR", Val.str "10.0.0.0/16")]) ∧
    loadBase fsC6b "config" = .ok (.dict []) ∧
    load_context_config fsC6b "dev" "config" =
      .ok (.dict [("FQDN", Val.str "x")]) := by
  have h1 := c6_empty_yaml fsC6 "dev" "config" ⟨"config", "dev.yaml"⟩
    ⟨.ok Val.none, .error "Expecting value"⟩
    ⟨.ok Val.none, .error "Expecting value"⟩
    [("VPC_CIDR", Val.str "10.0.0.0/16")] [] (by decide)
  have h2 := c6_empty_yaml fsC6b "dev" "config" ⟨"config", "dev.yaml"⟩
    ⟨.ok (.dict [("FQDN", .str "x")]), .error "x"⟩
    ⟨.ok Val.none, .error "Expecting value"⟩
    [] [("FQDN", Val.str "x")] (by decide)
  have h2c := h2.2.2 rfl rfl
  exact ⟨h1.1 ⟨"config", "dev.yaml"⟩ ⟨.ok Val.none, .error "Expecting value"⟩
      rfl (by decide) rfl,
    h1.2.1 rfl rfl rfl (by decide) rfl,
    h2c.1,
    h2c.2 rfl rfl (by decide)⟩

/-- C7: a syntactically malformed base or environment document makes
resolve fail with the underlying parser's error carried through
unchanged — a YAML-domain error for `.yaml`/`.yml` files and a
JSON-domain error for `.json` files, never a resolver-specific kind —
and no result is produced. -/
theorem c7_parse_error_propagation (fs : FS) (env dir : String) (e : String)
    (hv : env ∈ valid_envs) :
    ((∃ c, fs.content (basePath dir) = Option.some c ∧ c.yaml = .error e) →
      load_context_config fs env dir = .error (.yamlParseError e)) ∧
    (∀ p c b, loadBase fs dir = .ok b → discover fs dir env = [p] →
      fs.content p = Option.some c →
      (p.suffix = ".yaml" ∨ p.suffix = ".yml") → c.yaml = .error e →
      load_context_config fs env dir = .error (.yamlParseError e)) ∧
    (∀ p c b, loadBase fs dir = .ok b → discover fs dir env = [p] →
      fs.content p = Option.some c → p.suffix = ".json" → c.json = .error e →
      load_context_config fs env dir = .error (.jsonParseError e)) := by
  refine ⟨?_, ?_, ?_⟩
  · rintro ⟨c, hc, hy⟩
    have hbase : loadBase fs dir = .error (.yamlParseError e) := by
      unfold loadBase
      rw [if_pos (by simp [FS.pathExists, hc])]
      simp only [read_file, hc]
      rw [if_pos (Or.inl (basePath_suffix dir)), hy]
    exact load_base_error fs env dir (.yamlParseError e) hv hbase
  · intro p c b hb hd hc hs hy
    have hr : read_file fs p = .error (.yamlParseError e) := by
      simp only [read_file, hc]
      rw [if_pos hs, hy]
    rw [load_success fs env dir b p hv hb hd, hr]
  · intro p c b hb hd hc hs hj
    have hr : read_file fs p = .error (.jsonParseError e) := by
      simp only [read_file, hc]
      rw [if_neg (by simp [hs]), if_pos hs, hj]
    rw [load_success fs env dir b p hv hb hd, hr]

/-- C7 witness: a malformed `base.yaml` surfaces its YAML error; a
malformed `dev.json` surfaces its JSON error. -/
theorem c7_parse_error_propagation_witness :
    load_context_config fsC7a "dev" "config" =
      .error (.yamlParseError "while scanning") ∧
    load_context_config fsC7b "dev" "config" =
      .error (.jsonParseError "Expecting value: line 1") := by
  constructor
  · exact (c7_parse_error_propagation fsC7a "dev" "config" "while scanning"
      (by decide)).1 ⟨⟨.error "while scanning", .error "x"⟩, rfl, rfl⟩
  · exact (c7_parse_error_propagation fsC7b "dev" "config"
      "Expecting value: line 1" (by decide)).2.2 ⟨"config", "dev.json"⟩
      ⟨.error "y", .error "Expecting value: line 1"⟩ (.dict [])
      rfl rfl rfl (by decide) rfl

/-- C8: resolution is a function of the environment name, the directory
and the contents of the four paths the resolver may consult — two
filesystems agreeing on `base.yaml` and the three environment
candidates yield identical outcomes, so two calls against an unchanged
directory return equal mappings or the same error. -/
theorem c8_fs_determinism (fs1 fs2 : FS) (env dir : String)
    (hb : fs1.content (basePath dir) = fs2.content (basePath dir))
    (h1 : fs1.content ⟨dir, env ++ ".yaml"⟩ = fs2.content ⟨dir, env ++ ".yaml"⟩)
    (h2 : fs1.content ⟨dir, env ++ ".yml"⟩ = fs2.content ⟨dir, env ++ ".yml"⟩)
    (h3 : fs1.content ⟨dir, env ++ ".json"⟩ = fs2.content ⟨dir, env ++ ".json"⟩) :
    load_context_config fs1 env dir = load_context_config fs2 env dir := by
  rcases e1 : fs2.content ⟨dir, env ++ ".yaml"⟩ with _ | c1 <;>
  rcases e2 : fs2.content ⟨dir, env ++ ".yml"⟩ with _ | c2 <;>
  rcases e3 : fs2.content ⟨dir, env ++ ".json"⟩ with _ | c3 <;>
  rcases eb : fs2.content (basePath dir) with _ | cb <;>
  rw [e1] at h1 <;> rw [e2] at h2 <;> rw [e3] at h3 <;> rw [eb] at hb <;>
  simp [load_context_config, loadBase, discover, read_file, FS.pathExists,
    envCandidates, List.filter, hb, h1, h2, h3, e1, e2, e3, eb]

/-- C8 witness: a filesystem with an extra unrelated file resolves
identically to one without it. -/
theorem c8_fs_determinism_witness :
    load_context_config fsC8a "dev" "config" =
      load_context_config fsC8b "dev" "config" :=
  c8_fs_determinism fsC8a fsC8b "dev" "config" rfl rfl rfl rfl

/-- C9: the `Unsupported config file type` branch of `read_file` is
unreachable through `load_context_config`: every path the resolver
opens carries suffix `.yaml`, `.yml` or `.json`, so no call ever
returns the `UnsupportedFormat` error. -/
theorem c9_unsupported_unreachable (fs : FS) (env dir : String) (s : String) :
    load_context_config fs env dir ≠ .error (.unsupportedFormat s) := by
  by_cases hv : env ∈ valid_envs
  · refine load_not_unsupported_aux fs env dir s hv ?_
    intro p hp
    have hv3 : env = "dev" ∨ env = "stage" ∨ env = "prod" := by
      simpa [valid_envs] using hv
    rcases hv3 with h | h | h <;> subst h <;>
      simp only [envCandidates, List.mem_cons, List.not_mem_nil, or_false] at hp <;>
      rcases hp with h | h | h <;> subst h <;>
      first
        | exact Or.inl rfl
        | exact Or.inr (Or.inl rfl)
        | exact Or.inr (Or.inr rfl)
  · unfold load_context_config
    rw [if_pos hv]
    simp

/-- C10 counterexample: a well-formed `dev.yaml` whose document is the
empty list — not a mapping, and not a null or empty document — does not
fail at the merge step: the falsy value is coerced to the empty mapping
by `or {}` (utils.py line 39) and resolution succeeds with the base
mapping, so the coercion is not limited to null/empty documents. -/
theorem c10_counterexample :
    (fsC10bad.content ⟨"config", "dev.yaml"⟩).map Content.yaml =
      Option.some (.ok (.list [])) ∧
    load_context_config fsC10bad "dev" "config" =
      .ok (.dict [("A", Val.int 1)]) :=
  ⟨rfl, rfl⟩

/-- C10 amended: the resolver never verifies that a parsed document is
a mapping; a YAML environment document is coerced to the empty mapping
exactly when its value is falsy (null, false, 0, empty string, empty
sequence or empty mapping), a JSON result is never coerced, and an
uncoerced non-mapping environment value makes resolve fail at the merge
step with Python's generic `TypeError`, not a resolver error kind. -/
theorem c10_no_mapping_check (fs : FS) (env dir : String) (p : PyPath)
    (c : Content) (b : List (String × Val)) (v : Val)
    (hv : env ∈ valid_envs)
    (hb : loadBase fs dir = .ok (.dict b))
    (hd : discover fs dir env = [p])
    (hc : fs.content p = Option.some c) :
    ((p.suffix = ".yaml" ∨ p.suffix = ".yml") → c.yaml = .ok v →
      read_file fs p = .ok (if v.truthy then v else .dict [])) ∧
    (p.suffix = ".json" → c.json = .ok v → read_file fs p = .ok v) ∧
    (read_file fs p = .ok v → (∀ kvs, v ≠ .dict kvs) →
      load_context_config fs env dir =
        .error (.typeError ("'" ++ v.pyTypeName ++ "' object is not a mapping"))) := by
  refine ⟨?_, ?_, ?_⟩
  · intro hs hy
    simp only [read_file, hc]
    rw [if_pos hs, hy]
  · intro hs hj
    simp only [read_file, hc]
    rw [if_neg (by simp [hs]), if_pos hs, hj]
  · intro hr hnd
    rw [load_success fs env dir (.dict b) p hv hb hd, hr]
    show mergeStar (.dict b) v = _
    rcases v with _ | b' | n | s' | xs | kvs
    · rfl
    · rfl
    · rfl
    · rfl
    · rfl
    · exact absurd rfl (hnd kvs)

/-- C10 witness: a `dev.json` holding the JSON literal `null` is not
coerced and makes resolution fail at the merge with the `NoneType`
`TypeError`. -/
theorem c10_no_mapping_check_witness :
    read_file fsC10 ⟨"config", "dev.json"⟩ = .ok Val.none ∧
    load_context_config fsC10 "dev" "config" =
      .error (.typeError "'NoneType' object is not a mapping") := by
  have h := c10_no_mapping_check fsC10 "dev" "config" ⟨"config", "dev.json"⟩
    ⟨.error "y", .ok Val.none⟩ [("A", Val.int 1)] Val.none
    (by decide) rfl rfl rfl
  have hr : read_file fsC10 ⟨"config", "dev.json"⟩ = .ok Val.none :=
    h.2.1 (by decide) rfl
  refine ⟨hr, (h.2.2 hr (fun kvs hk => ?_)).trans rfl⟩
  cases hk
